import Mathlib

/-!
Verification development for the uac-backend identity-and-access server.

The Go services are shallowly embedded: the in-process maps and the Redis
key-value store become association lists (`Store`), wall-clock instants become
`Nat`, and each service method becomes a pure Lean function returning its
result together with the updated store.  Cryptographic primitives used by the
code (`crypto/sha256`, `encoding/base64` raw-URL) are implemented bit-for-bit;
bcrypt hashing and RSA-JWT signing are modelled by their functional contract
(a stored credential matches exactly the secret it was derived from; a signed
token is represented by its decoded claims, with the random token id drawn
from a fresh-name supply).
-/

deriving instance DecidableEq for Except

namespace UAC

/-- Association-list store keyed by strings; models the Go maps
(`tokenService.codes`, `tokenService.revokedTokens`) and the Redis
key-value store used by `sessionService`. -/
def Store (α : Type) : Type := List (String × α)

namespace Store

/-- Key lookup, as Go `m[k]` / Redis `GET`. -/
def find {α : Type} : Store α → String → Option α
  | [], _ => none
  | (k, v) :: rest, key => if key = k then some v else find rest key

/-- Key insert/overwrite, as Go `m[k] = v` / Redis `SET`. -/
def set {α : Type} : Store α → String → α → Store α
  | [], key, v => [(key, v)]
  | (k, w) :: rest, key, v =>
      if key = k then (k, v) :: rest else (k, w) :: set rest key v

/-- Key removal, as Go `delete(m, k)` / Redis `DEL`. -/
def del {α : Type} : Store α → String → Store α
  | [], _ => []
  | (k, w) :: rest, key =>
      if key = k then del rest key else (k, w) :: del rest key

end Store

/-! ## Token service: authorization codes (`internal/service/token.go`) -/

/-- Error outcomes of `tokenService.ValidateAuthorizationCode`.
`invalidToken` is the not-found outcome (the Go code reuses
`ErrInvalidToken` for an absent code). -/
inductive CodeErr where
  | invalidToken
  | codeUsed
  | codeExpired
deriving DecidableEq

/-- `service.AuthorizationCode` (token.go). -/
structure AuthorizationCode where
  code : String
  clientID : String
  userID : String
  redirectURI : String
  scopes : List String
  codeChallenge : String
  codeChallengeMethod : String
  expiresAt : Nat
  used : Bool
deriving DecidableEq

/-- `tokenService.ValidateAuthorizationCode` (token.go:216-235).  Looks the
code up in the `codes` map; absent → `ErrInvalidToken`; used-flag set →
`ErrCodeUsed`; past expiry → delete the entry and `ErrCodeExpired`;
otherwise mark the record used (the Go code mutates the record the map
points at) and return it. -/
def validateAuthorizationCode (now : Nat) (codes : Store AuthorizationCode)
    (codeStr : String) :
    Except CodeErr AuthorizationCode × Store AuthorizationCode :=
  match codes.find codeStr with
  | none => (Except.error CodeErr.invalidToken, codes)
  | some code =>
      if code.used then (Except.error CodeErr.codeUsed, codes)
      else if now > code.expiresAt then
        (Except.error CodeErr.codeExpired, codes.del codeStr)
      else
        let marked := { code with used := true }
        (Except.ok marked, codes.set codeStr marked)

/-- Driver that redeems the same code once per instant in `times`,
threading the store; used to state that every later redemption fails. -/
def redeemRepeatedly (times : List Nat) (codes : Store AuthorizationCode)
    (codeStr : String) :
    List (Except CodeErr AuthorizationCode) × Store AuthorizationCode :=
  match times with
  | [] => ([], codes)
  | t :: ts =>
      let r := validateAuthorizationCode t codes codeStr
      let rest := redeemRepeatedly ts r.2 codeStr
      (r.1 :: rest.1, rest.2)

/-- A fresh, unexpired stored authorization code used as concrete witness
input. -/
def demoAuthCode : AuthorizationCode :=
  { code := "code-1", clientID := "client-1", userID := "user-1"
    redirectURI := "https://app.example.com/callback"
    scopes := ["openid", "profile"]
    codeChallenge := "", codeChallengeMethod := ""
    expiresAt := 600, used := false }

/-- Singleton code store holding `demoAuthCode`. -/
def demoCodes : Store AuthorizationCode := [("code-1", demoAuthCode)]

/-! ## CAS ticket engine (`internal/service/session.go`) -/

/-- Error outcomes of `sessionService.ValidateST` (`ErrSTNotFound`,
`ErrSTExpired`, `ErrSTUsed`, and the ad-hoc service-mismatch error). -/
inductive STErr where
  | stNotFound
  | stExpired
  | stUsed
  | serviceMismatch
deriving DecidableEq

/-- `model.ServiceTicket` (internal/model/session.go). -/
structure ServiceTicket where
  ticket : String
  tgtID : String
  userID : String
  service : String
  used : Bool
  expiresAt : Nat
deriving DecidableEq

/-- `sessionService.ValidateST` (session.go:308-345).  Absent →
`ErrSTNotFound`; past expiry → evict and `ErrSTExpired`; used-flag set →
`ErrSTUsed`; service differs from the one the ticket was minted for →
service-mismatch; otherwise flip the used-flag and persist before
returning the ticket. -/
def validateST (now : Nat) (store : Store ServiceTicket)
    (ticket service : String) :
    Except STErr ServiceTicket × Store ServiceTicket :=
  match store.find ticket with
  | none => (Except.error STErr.stNotFound, store)
  | some st =>
      if now > st.expiresAt then (Except.error STErr.stExpired, store.del ticket)
      else if st.used then (Except.error STErr.stUsed, store)
      else if st.service ≠ service then
        (Except.error STErr.serviceMismatch, store)
      else
        let marked := { st with used := true }
        (Except.ok marked, store.set ticket marked)

/-- A fresh service ticket minted for service `"https://a.example.com"`. -/
def demoST : ServiceTicket :=
  { ticket := "ST-1", tgtID := "TGT-1", userID := "user-1"
    service := "https://a.example.com", used := false, expiresAt := 300 }

/-- Singleton ticket store holding `demoST`. -/
def demoSTStore : Store ServiceTicket := [("ST-1", demoST)]

/-- A ticket store whose only ticket is already past expiry at instant 10. -/
def demoExpiredSTStore : Store ServiceTicket :=
  [("ST-2", { ticket := "ST-2", tgtID := "TGT-1", userID := "user-1"
              service := "https://a.example.com", used := false, expiresAt := 5 })]

/-! ## SHA-256 and base64url (Go `crypto/sha256`, `encoding/base64`)

Byte strings are `List Nat` with entries below 256; 32-bit words are `Nat`
reduced modulo `2 ^ 32` explicitly. -/

/-- `2 ^ 32`, the 32-bit word modulus. -/
def w32 : Nat := 4294967296

/-- 32-bit right rotation. -/
def rotr (n x : Nat) : Nat := ((x >>> n) ||| (x <<< (32 - n))) % w32

/-- SHA-256 small sigma 0. -/
def ssig0 (x : Nat) : Nat := (rotr 7 x) ^^^ (rotr 18 x) ^^^ (x >>> 3)

/-- SHA-256 small sigma 1. -/
def ssig1 (x : Nat) : Nat := (rotr 17 x) ^^^ (rotr 19 x) ^^^ (x >>> 10)

/-- SHA-256 big sigma 0. -/
def bsig0 (x : Nat) : Nat := (rotr 2 x) ^^^ (rotr 13 x) ^^^ (rotr 22 x)

/-- SHA-256 big sigma 1. -/
def bsig1 (x : Nat) : Nat := (rotr 6 x) ^^^ (rotr 11 x) ^^^ (rotr 25 x)

/-- SHA-256 choose function (32-bit complement written as xor with the
all-ones word). -/
def chWord (x y z : Nat) : Nat := (x &&& y) ^^^ ((x ^^^ 4294967295) &&& z)

/-- SHA-256 majority function. -/
def majWord (x y z : Nat) : Nat := (x &&& y) ^^^ (x &&& z) ^^^ (y &&& z)

/-- The 64 SHA-256 round constants (FIPS 180-4, written in decimal). -/
def sha256K : List Nat :=
  [1116352408, 1899447441, 3049323471, 3921009573,
   961987163, 1508970993, 2453635748, 2870763221,
   3624381080, 310598401, 607225278, 1426881987,
   1925078388, 2162078206, 2614888103, 3248222580,
   3835390401, 4022224774, 264347078, 604807628,
   770255983, 1249150122, 1555081692, 1996064986,
   2554220882, 2821834349, 2952996808, 3210313671,
   3336571891, 3584528711, 113926993, 338241895,
   666307205, 773529912, 1294757372, 1396182291,
   1695183700, 1986661051, 2177026350, 2456956037,
   2730485921, 2820302411, 3259730800, 3345764771,
   3516065817, 3600352804, 4094571909, 275423344,
   430227734, 506948616, 659060556, 883997877,
   958139571, 1322822218, 1537002063, 1747873779,
   1955562222, 2024104815, 2227730452, 2361852424,
   2428436474, 2756734187, 3204031479, 3329325298]

/-- Big-endian 8-byte encoding of a bit length. -/
def be64 (n : Nat) : List Nat :=
  [(n >>> 56) % 256, (n >>> 48) % 256, (n >>> 40) % 256, (n >>> 32) % 256,
   (n >>> 24) % 256, (n >>> 16) % 256, (n >>> 8) % 256, n % 256]

/-- Big-endian 4-byte encoding of a 32-bit word. -/
def be32 (n : Nat) : List Nat :=
  [(n >>> 24) % 256, (n >>> 16) % 256, (n >>> 8) % 256, n % 256]

/-- SHA-256 message padding: append `0x80`, zero bytes up to 56 mod 64,
then the 64-bit big-endian bit length. -/
def sha256Pad (msg : List Nat) : List Nat :=
  let L := msg.length
  let zeros := (119 - (L % 64)) % 64
  msg ++ [128] ++ List.replicate zeros 0 ++ be64 (8 * L)

/-- Group a byte list into big-endian 32-bit words. -/
def toWords : List Nat → List Nat
  | a :: b :: c :: d :: rest =>
      (((a * 256 + b) * 256 + c) * 256 + d) :: toWords rest
  | _ => []

/-- Group a word list into blocks of 16 words (a SHA-256 padded message
always parses into complete blocks). -/
def toBlocks : List Nat → List (List Nat)
  | w0 :: w1 :: w2 :: w3 :: w4 :: w5 :: w6 :: w7 ::
    w8 :: w9 :: w10 :: w11 :: w12 :: w13 :: w14 :: w15 :: rest =>
      [w0, w1, w2, w3, w4, w5, w6, w7,
       w8, w9, w10, w11, w12, w13, w14, w15] :: toBlocks rest
  | _ => []

/-- The eight SHA-256 working variables. -/
structure Sha8 where
  a : Nat
  b : Nat
  c : Nat
  d : Nat
  e : Nat
  f : Nat
  g : Nat
  h : Nat
deriving DecidableEq

/-- The SHA-256 initial hash value (FIPS 180-4, written in decimal). -/
def sha256Init : Sha8 :=
  { a := 1779033703, b := 3144134277, c := 1013904242, d := 2773480762,
    e := 1359893119, f := 2600822924, g := 528734635, h := 1541459225 }

/-- Extend a 16-word block to the 64-word message schedule, pushing
`count` additional words. -/
def extendSchedule (w : Array Nat) : Nat → Array Nat
  | 0 => w
  | count + 1 =>
      let t := w.size
      let next := (ssig1 (w.getD (t - 2) 0) + w.getD (t - 7) 0 +
                   ssig0 (w.getD (t - 15) 0) + w.getD (t - 16) 0) % w32
      extendSchedule (w.push next) count

/-- One SHA-256 compression round. -/
def sha256Round (k wt : Nat) (s : Sha8) : Sha8 :=
  let T1 := (s.h + bsig1 s.e + chWord s.e s.f s.g + k + wt) % w32
  let T2 := (bsig0 s.a + majWord s.a s.b s.c) % w32
  { a := (T1 + T2) % w32, b := s.a, c := s.b, d := s.c,
    e := (s.d + T1) % w32, f := s.e, g := s.f, h := s.g }

/-- Compress one 16-word block into the running hash value. -/
def sha256Block (hv : Sha8) (block : List Nat) : Sha8 :=
  let w := extendSchedule block.toArray 48
  let kw := (List.range 64).map fun t => (sha256K.getD t 0, w.getD t 0)
  let s := kw.foldl (fun s p => sha256Round p.1 p.2 s) hv
  { a := (hv.a + s.a) % w32, b := (hv.b + s.b) % w32,
    c := (hv.c + s.c) % w32, d := (hv.d + s.d) % w32,
    e := (hv.e + s.e) % w32, f := (hv.f + s.f) % w32,
    g := (hv.g + s.g) % w32, h := (hv.h + s.h) % w32 }

/-- SHA-256 of a byte list, as Go `sha256.Sum256`. -/
def sha256 (msg : List Nat) : List Nat :=
  let hv := (toBlocks (toWords (sha256Pad msg))).foldl sha256Block sha256Init
  be32 hv.a ++ be32 hv.b ++ be32 hv.c ++ be32 hv.d ++
  be32 hv.e ++ be32 hv.f ++ be32 hv.g ++ be32 hv.h

/-- The base64url alphabet character for a 6-bit group. -/
def b64urlChar (n : Nat) : Char :=
  if n < 26 then Char.ofNat (65 + n)
  else if n < 52 then Char.ofNat (97 + (n - 26))
  else if n < 62 then Char.ofNat (48 + (n - 52))
  else if n = 62 then Char.ofNat 45
  else Char.ofNat 95

/-- Unpadded base64url encoding of a byte list, as Go
`base64.RawURLEncoding.EncodeToString`. -/
def base64RawUrl : List Nat → String
  | [] => ""
  | [b1] =>
      String.mk [b64urlChar (b1 >>> 2), b64urlChar ((b1 &&& 3) <<< 4)]
  | [b1, b2] =>
      String.mk [b64urlChar (b1 >>> 2),
                 b64urlChar (((b1 &&& 3) <<< 4) ||| (b2 >>> 4)),
                 b64urlChar ((b2 &&& 15) <<< 2)]
  | b1 :: b2 :: b3 :: rest =>
      String.mk [b64urlChar (b1 >>> 2),
                 b64urlChar (((b1 &&& 3) <<< 4) ||| (b2 >>> 4)),
                 b64urlChar (((b2 &&& 15) <<< 2) ||| (b3 >>> 6)),
                 b64urlChar (b3 &&& 63)] ++ base64RawUrl rest

/-- UTF-8 encoding of one scalar value, as Go `[]byte(string)`. -/
def utf8Char (c : Char) : List Nat :=
  let n := c.toNat
  if n < 128 then [n]
  else if n < 2048 then [192 + n / 64, 128 + n % 64]
  else if n < 65536 then
    [224 + n / 4096, 128 + (n / 64) % 64, 128 + n % 64]
  else
    [240 + n / 262144, 128 + (n / 4096) % 64, 128 + (n / 64) % 64,
     128 + n % 64]

/-- UTF-8 bytes of a string, as Go `[]byte(s)`. -/
def utf8Bytes (s : String) : List Nat := s.data.flatMap utf8Char

/-- `OAuthHandler.verifyPKCE` (oauth.go:472-484): method `plain` (or empty)
compares challenge and verifier byte-for-byte; method `S256` compares the
challenge against the unpadded base64url encoding of the SHA-256 digest of
the verifier; any other method fails. -/
def verifyPKCE (challenge method verifier : String) : Bool :=
  if method = "plain" || method = "" then challenge == verifier
  else if method = "S256" then
    challenge == base64RawUrl (sha256 (utf8Bytes verifier))
  else false

/-- The challenge the spec prescribes for method `S256`: "the base64url
(no padding) encoding of SHA-256 of the verifier". -/
def specS256Challenge (v : String) : String :=
  base64RawUrl (sha256 (utf8Bytes v))

/-! ## Token service: signed tokens (`internal/service/token.go`)

An RSA-signed JWT is modelled by its decoded claims.  `generateSecureCode`
draws the token id from cryptographic randomness; collision-freeness is
modelled by a fresh-name counter (`nextJti`).  Distinct claims yield
distinct compact token strings, so the Go revocation map keyed by token
string is modelled as a list of claim records. -/

/-- `service.TokenClaims` plus the registered claims `ValidateToken`
inspects (issuer, expiry) and the unique token id. -/
structure TokenM where
  userID : String
  username : String
  email : String
  orgID : String
  appID : String
  clientID : String
  scopes : List String
  typ : String
  issuer : String
  expiresAt : Nat
  jti : Nat
deriving DecidableEq

/-- Error outcomes of `tokenService.ValidateToken`. -/
inductive TokenErr where
  | invalidToken
  | tokenExpired
  | invalidIssuer
deriving DecidableEq

/-- `tokenService` state: configuration plus the revoked-token set and the
fresh-name supply for token ids. -/
structure TokenSvc where
  issuer : String
  accessExpiry : Nat
  refreshExpiry : Nat
  revoked : List TokenM
  nextJti : Nat
deriving DecidableEq

/-- `tokenService.ValidateToken` (token.go:171-203): reject revoked tokens,
then expired ones, then a wrong issuer; otherwise return the claims. -/
def validateToken (now : Nat) (s : TokenSvc) (t : TokenM) :
    Except TokenErr TokenM :=
  if t ∈ s.revoked then Except.error TokenErr.invalidToken
  else if now > t.expiresAt then Except.error TokenErr.tokenExpired
  else if t.issuer ≠ s.issuer then Except.error TokenErr.invalidIssuer
  else Except.ok t

/-- `tokenService.GenerateAccessToken` (token.go:116-131): stamp type
`access`, issuer, expiry `now + accessExpiry`, and a fresh token id. -/
def generateAccessToken (now : Nat) (s : TokenSvc) (c : TokenM) :
    TokenM × TokenSvc :=
  ({ c with typ := "access", issuer := s.issuer,
            expiresAt := now + s.accessExpiry, jti := s.nextJti },
   { s with nextJti := s.nextJti + 1 })

/-- `tokenService.GenerateRefreshToken` (token.go:134-149): stamp type
`refresh`, issuer, expiry `now + refreshExpiry`, and a fresh token id. -/
def generateRefreshToken (now : Nat) (s : TokenSvc) (c : TokenM) :
    TokenM × TokenSvc :=
  ({ c with typ := "refresh", issuer := s.issuer,
            expiresAt := now + s.refreshExpiry, jti := s.nextJti },
   { s with nextJti := s.nextJti + 1 })

/-- `tokenService.RevokeToken` (token.go:238-241): add to the revocation
set; always succeeds. -/
def revokeToken (s : TokenSvc) (t : TokenM) : TokenSvc :=
  { s with revoked := t :: s.revoked }

/-- Token ids already issued are strictly below the fresh-name counter;
revoked tokens were issued, so their ids are below it too.  This holds for
every state reachable from `NewTokenService` (empty revocation set). -/
def TokenSvc.Fresh (s : TokenSvc) : Prop :=
  ∀ u ∈ s.revoked, u.jti < s.nextJti

instance (s : TokenSvc) : Decidable s.Fresh := by
  unfold TokenSvc.Fresh
  infer_instance

/-! ## OAuth handler (`internal/handler/oauth.go`) -/

/-- The distinct `tokenError` outcomes of the token-endpoint handlers. -/
inductive OAuthErr where
  | missingCode
  | codeExpired
  | codeUsed
  | codeInvalid
  | clientNotFound
  | clientIDMismatch
  | clientSecretWrong
  | redirectMismatch
  | missingVerifier
  | pkceFailed
  | missingRefreshToken
  | refreshInvalid
  | wrongTokenType
  | missingClientCreds
deriving DecidableEq

/-- Successful response of the refresh-token grant. -/
structure RefreshResult where
  accessToken : TokenM
  refreshToken : TokenM
  scope : List String
deriving DecidableEq

/-- `OAuthHandler.handleRefreshToken` (oauth.go:278-318).  The presented
token (already parsed; `none` models a missing `refresh_token` field) is
validated, its kind must be `refresh`, the old token is revoked, and a new
access+refresh pair is minted carrying the same
user/client/username/email/scope claims. -/
def handleRefreshToken (now : Nat) (s : TokenSvc) (tok? : Option TokenM) :
    Except OAuthErr RefreshResult × TokenSvc :=
  match tok? with
  | none => (Except.error OAuthErr.missingRefreshToken, s)
  | some tok =>
      match validateToken now s tok with
      | Except.error _ => (Except.error OAuthErr.refreshInvalid, s)
      | Except.ok claims =>
          if claims.typ ≠ "refresh" then
            (Except.error OAuthErr.wrongTokenType, s)
          else
            let s1 := revokeToken s tok
            let newClaims : TokenM :=
              { userID := claims.userID, clientID := claims.clientID,
                username := claims.username, email := claims.email,
                scopes := claims.scopes, orgID := "", appID := "",
                typ := "", issuer := "", expiresAt := 0, jti := 0 }
            let ar := generateAccessToken now s1 newClaims
            let rr := generateRefreshToken now ar.2 newClaims
            (Except.ok { accessToken := ar.1, refreshToken := rr.1,
                         scope := claims.scopes }, rr.2)

/-! ## Application service (`internal/service/app.go`, `internal/model/application.go`) -/

/-- `model.Application`.  `clientSecret` models the bcrypt pair: the stored
hash verifies exactly the secret it was derived from, so
`VerifyClientSecret s = (s == clientSecret)`. -/
structure Application where
  clientID : String
  clientSecret : String
  redirectURIs : List String
  allowedScopes : List String
  oauthVersion : String
  status : String
deriving DecidableEq

/-- `Application.IsActive` (application.go:62-64). -/
def Application.isActive (a : Application) : Bool := a.status == "active"

/-- `Application.VerifyClientSecret` (application.go:82-85), with bcrypt
modelled by exact secret comparison. -/
def Application.verifyClientSecret (a : Application) (secret : String) : Bool :=
  secret == a.clientSecret

/-- Error outcomes of `appService.GetByClientID`. -/
inductive AppErr where
  | emptyClientID
  | appNotFound
deriving DecidableEq

/-- `appService.GetByClientID` (app.go:93-98) over
`applicationRepository.GetByClientID`: reject an empty client id, then a
plain keyed lookup with no status filtering. -/
def getByClientID (apps : Store Application) (clientID : String) :
    Except AppErr Application :=
  if clientID = "" then Except.error AppErr.emptyClientID
  else
    match apps.find clientID with
    | none => Except.error AppErr.appNotFound
    | some a => Except.ok a

/-- Successful response of the client-credentials grant (the minted access
token carries the client id and requested scopes, no user subject). -/
structure ClientCredsResult where
  clientID : String
  scopes : List String
deriving DecidableEq

/-- Split a character list on the space character, as Go
`strings.Split(s, " ")` does (an empty input yields one empty field). -/
def splitOnSpace : List Char → List (List Char)
  | [] => [[]]
  | c :: rest =>
      let r := splitOnSpace rest
      if c = Char.ofNat 32 then [] :: r
      else
        match r with
        | [] => [[c]]
        | g :: gs => (c :: g) :: gs

/-- Go `strings.Split(s, " ")`. -/
def goSplitSpace (s : String) : List String :=
  (splitOnSpace s.data).map fun g => String.mk g

/-- `OAuthHandler.handleClientCredentials` (oauth.go:321-357): require both
client id and secret, look the application up by client id, verify the
secret, and mint an access token.  No status check appears on this path. -/
def handleClientCredentials (apps : Store Application)
    (clientID clientSecret scope : String) :
    Except OAuthErr ClientCredsResult :=
  if clientID = "" || clientSecret = "" then
    Except.error OAuthErr.missingClientCreds
  else
    match getByClientID apps clientID with
    | Except.error _ => Except.error OAuthErr.clientNotFound
    | Except.ok app =>
        if !(app.verifyClientSecret clientSecret) then
          Except.error OAuthErr.clientSecretWrong
        else
          Except.ok { clientID := clientID, scopes := goSplitSpace scope }

/-- `TokenRequest` fields consulted by the authorization-code grant. -/
structure TokenRequestM where
  code : String
  redirectURI : String
  clientID : String
  clientSecret : String
  codeVerifier : String
deriving DecidableEq

/-- `containsScope` (oauth.go:487-494). -/
def containsScope (scopes : List String) (target : String) : Bool :=
  scopes.any fun s => s == target

/-- Successful token response of the authorization-code grant (claims put
into the minted tokens, and whether an ID token is attached). -/
structure TokenResponseM where
  userID : String
  clientID : String
  scopes : List String
  hasIDToken : Bool
deriving DecidableEq

/-- `OAuthHandler.handleAuthorizationCode` (oauth.go:177-275): redeem the
code; look the client up by the code's client id; check client id equality
only when the request supplies one; verify the client secret only when the
request supplies one; check redirect-URI equality only when the request
supplies one; verify PKCE when the code carries a challenge; then mint
tokens. -/
def handleAuthorizationCode (now : Nat) (codes : Store AuthorizationCode)
    (apps : Store Application) (req : TokenRequestM) :
    Except OAuthErr TokenResponseM × Store AuthorizationCode :=
  if req.code = "" then (Except.error OAuthErr.missingCode, codes)
  else
    let v := validateAuthorizationCode now codes req.code
    match v.1 with
    | Except.error CodeErr.codeExpired => (Except.error OAuthErr.codeExpired, v.2)
    | Except.error CodeErr.codeUsed => (Except.error OAuthErr.codeUsed, v.2)
    | Except.error CodeErr.invalidToken => (Except.error OAuthErr.codeInvalid, v.2)
    | Except.ok authCode =>
        match getByClientID apps authCode.clientID with
        | Except.error _ => (Except.error OAuthErr.clientNotFound, v.2)
        | Except.ok app =>
            if req.clientID ≠ "" ∧ req.clientID ≠ authCode.clientID then
              (Except.error OAuthErr.clientIDMismatch, v.2)
            else if req.clientSecret ≠ "" ∧
                app.verifyClientSecret req.clientSecret = false then
              (Except.error OAuthErr.clientSecretWrong, v.2)
            else if req.redirectURI ≠ "" ∧
                req.redirectURI ≠ authCode.redirectURI then
              (Except.error OAuthErr.redirectMismatch, v.2)
            else if authCode.codeChallenge ≠ "" ∧ req.codeVerifier = "" then
              (Except.error OAuthErr.missingVerifier, v.2)
            else if authCode.codeChallenge ≠ "" ∧
                verifyPKCE authCode.codeChallenge authCode.codeChallengeMethod
                  req.codeVerifier = false then
              (Except.error OAuthErr.pkceFailed, v.2)
            else
              (Except.ok { userID := authCode.userID,
                           clientID := authCode.clientID,
                           scopes := authCode.scopes,
                           hasIDToken := containsScope authCode.scopes "openid" },
               v.2)

/-! ## RBAC service (`internal/service/auth.go`, `internal/model/rbac.go`) -/

/-- `model.Permission` (only the code is consulted by the claims). -/
structure Permission where
  code : String
deriving DecidableEq

/-- `model.Role`. -/
structure Role where
  id : String
  orgID : String
  name : String
  code : String
  isSystem : Bool
  status : String
  permissions : List Permission
deriving DecidableEq

/-- Error outcomes of the RBAC role operations. -/
inductive RoleErr where
  | roleNotFound
  | roleCodeExists
  | systemRole
deriving DecidableEq

/-- `model.RoleSuperAdmin`. -/
def roleSuperAdmin : String := "super_admin"

/-- `model.ActionAll`. -/
def actionAll : String := "*"

/-- `model.BuildPermissionCode` (rbac.go:95-97). -/
def buildPermissionCode (resource action : String) : String :=
  resource ++ ":" ++ action

/-- `roleRepository.GetByID` over the role table. -/
def findRoleByID (roles : List Role) (id : String) : Option Role :=
  roles.find? fun r => r.id == id

/-- `roleRepository.GetByCode` over the role table. -/
def findRoleByCode (roles : List Role) (code : String) : Option Role :=
  roles.find? fun r => r.code == code

/-- `rbacService.CreateRole` (auth.go:777-789): reject when a role with the
same code already exists, default the status, create. -/
def createRole (roles : List Role) (role : Role) :
    Except RoleErr (List Role) :=
  match findRoleByCode roles role.code with
  | some _ => Except.error RoleErr.roleCodeExists
  | none =>
      let role1 := if role.status = "" then { role with status := "active" }
                   else role
      Except.ok (roles ++ [role1])

/-- `rbacService.UpdateRole` (auth.go:807-819): not-found when the id is
absent; the system-role error only when the role is system-flagged AND the
update would change its code; otherwise update. -/
def updateRole (roles : List Role) (role : Role) :
    Except RoleErr (List Role) :=
  match findRoleByID roles role.id with
  | none => Except.error RoleErr.roleNotFound
  | some existing =>
      if existing.isSystem = true ∧ role.code ≠ existing.code then
        Except.error RoleErr.systemRole
      else
        Except.ok (roles.map fun r => if r.id == role.id then role else r)

/-- `rbacService.DeleteRole` (auth.go:821-832): not-found when the id is
absent; the system-role error for any system-flagged role; otherwise
delete. -/
def deleteRole (roles : List Role) (id : String) :
    Except RoleErr (List Role) :=
  match findRoleByID roles id with
  | none => Except.error RoleErr.roleNotFound
  | some role =>
      if role.isSystem then Except.error RoleErr.systemRole
      else Except.ok (roles.filter fun r => !(r.id == id))

/-- `rbacService.CheckPermission` (auth.go:930-955): over the user's role
list, return true as soon as a role is the super-admin role or one of its
permissions matches `resource:action` exactly or the `resource:*`
wildcard; false when the loop falls through. -/
def checkPermission (roles : List Role) (resource action : String) : Bool :=
  let targetCode := buildPermissionCode resource action
  let allCode := buildPermissionCode resource actionAll
  roles.any fun role =>
    role.code == roleSuperAdmin ||
    role.permissions.any fun p => p.code == targetCode || p.code == allCode

/-! ## Authentication service (`internal/service/auth.go`, user model) -/

/-- Error outcomes of `authService.validateAndAuthenticate`. -/
inductive AuthErr where
  | invalidCredentials
  | accountLocked
  | accountDisabled
deriving DecidableEq

/-- `model.User` fields consulted by authentication.  `password` models the
bcrypt pair for the same reason as `Application.clientSecret`. -/
structure UserM where
  username : String
  password : String
  status : String
  failedLoginCount : Nat
  lockedUntil : Option Nat
deriving DecidableEq

/-- `service.LockDuration` (15 minutes), in seconds. -/
def lockDuration : Nat := 15 * 60

/-- The lock threshold hard-coded in `User.IncrementFailedLogin`. -/
def lockThreshold : Nat := 5

/-- `User.IsLocked`: locked while `now` is strictly before `lockedUntil`. -/
def UserM.isLocked (u : UserM) (now : Nat) : Bool :=
  match u.lockedUntil with
  | none => false
  | some t => decide (now < t)

/-- `User.IsActive`. -/
def UserM.isActive (u : UserM) : Bool := u.status == "active"

/-- `User.VerifyPassword`, with bcrypt modelled by exact comparison. -/
def UserM.verifyPassword (u : UserM) (password : String) : Bool :=
  password == u.password

/-- `User.IncrementFailedLogin`: bump the counter; at five or more failures
set the lock to `now` plus fifteen minutes. -/
def incrementFailedLogin (now : Nat) (u : UserM) : UserM :=
  let c := u.failedLoginCount + 1
  if c ≥ lockThreshold then
    { u with failedLoginCount := c, lockedUntil := some (now + lockDuration) }
  else
    { u with failedLoginCount := c }

/-- `User.ResetFailedLogin`. -/
def resetFailedLogin (u : UserM) : UserM :=
  { u with failedLoginCount := 0, lockedUntil := none }

/-- `authService.validateAndAuthenticate` (auth.go:64-90): locked accounts
fail first (before the password is even checked), then disabled accounts;
a wrong password increments the failure counter (persisting the user);
success resets a nonzero counter.  Returns the result together with the
persisted user record. -/
def validateAndAuthenticate (now : Nat) (u : UserM) (password : String) :
    Except AuthErr UserM × UserM :=
  if u.isLocked now then (Except.error AuthErr.accountLocked, u)
  else if !u.isActive then (Except.error AuthErr.accountDisabled, u)
  else if !(u.verifyPassword password) then
    let u1 := incrementFailedLogin now u
    (Except.error AuthErr.invalidCredentials, u1)
  else if u.failedLoginCount > 0 then
    let u1 := resetFailedLogin u
    (Except.ok u1, u1)
  else (Except.ok u, u)

/-- Run one authentication attempt per instant in `times` with the given
password, threading the persisted user record. -/
def authAttempts (times : List Nat) (u : UserM) (password : String) :
    List (Except AuthErr UserM) × UserM :=
  match times with
  | [] => ([], u)
  | t :: ts =>
      let r := validateAndAuthenticate t u password
      let rest := authAttempts ts r.2 password
      (r.1 :: rest.1, rest.2)

/-! ## Concrete demo data used by witnesses and counterexamples -/

/-- A token-service state as produced by `NewTokenService` after one token
(id 0) has been issued: empty revocation set, fresh-name counter at 1. -/
def demoTokenSvc : TokenSvc :=
  { issuer := "https://uac.example.com", accessExpiry := 900,
    refreshExpiry := 604800, revoked := [], nextJti := 0 }

/-- A refresh token issued by `demoTokenSvc` (so its id is below the
counter of the state it is presented to). -/
def demoRefreshTok : TokenM :=
  { userID := "user-1", username := "alice", email := "alice@example.com",
    orgID := "", appID := "", clientID := "client-1", scopes := ["openid"],
    typ := "refresh", issuer := "https://uac.example.com",
    expiresAt := 604800, jti := 0 }

/-- `demoTokenSvc` after issuing `demoRefreshTok`. -/
def demoTokenSvc1 : TokenSvc := { demoTokenSvc with nextJti := 1 }

/-- An application whose status is `disabled`. -/
def disabledApp : Application :=
  { clientID := "client-1", clientSecret := "s3cret",
    redirectURIs := ["https://app.example.com/callback"],
    allowedScopes := ["openid"], oauthVersion := "2.1", status := "disabled" }

/-- Application store holding only the disabled application. -/
def demoDisabledApps : Store Application := [("client-1", disabledApp)]

/-- An active application matching `demoAuthCode`'s client id. -/
def demoActiveApp : Application :=
  { clientID := "client-1", clientSecret := "s3cret",
    redirectURIs := ["https://app.example.com/callback"],
    allowedScopes := ["openid"], oauthVersion := "2.1", status := "active" }

/-- Application store holding only the active application. -/
def demoActiveApps : Store Application := [("client-1", demoActiveApp)]

/-- A token request that omits both `client_id` and `client_secret` (and
`redirect_uri` and `code_verifier`). -/
def demoReqNoCreds : TokenRequestM :=
  { code := "code-1", redirectURI := "", clientID := "", clientSecret := "",
    codeVerifier := "" }

/-- A system-flagged role (the seeded super-admin role). -/
def sysRole : Role :=
  { id := "role-1", orgID := "", name := "Super Admin",
    code := "super_admin", isSystem := true, status := "active",
    permissions := [] }

/-- Role table holding only the system role. -/
def demoRoles : List Role := [sysRole]

/-- A non-system role holding an exact permission and a wildcard
permission. -/
def orgAdminRole : Role :=
  { id := "role-3", orgID := "", name := "Org Admin", code := "org_admin",
    isSystem := false, status := "active",
    permissions := [{ code := "user:read" }, { code := "app:*" }] }

/-! ## Store lemmas -/

theorem Store.find_set_self {α : Type} (s : Store α) (k : String) (v : α) :
    (s.set k v).find k = some v := by
  induction s with
  | nil => simp [Store.set, Store.find]
  | cons hd tl ih =>
      obtain ⟨k1, w⟩ := hd
      by_cases h : k = k1 <;> simp [Store.set, Store.find, h, ih]

theorem Store.find_del_self {α : Type} (s : Store α) (k : String) :
    (s.del k).find k = none := by
  induction s with
  | nil => simp [Store.del, Store.find]
  | cons hd tl ih =>
      obtain ⟨k1, w⟩ := hd
      by_cases h : k = k1
      · subst h
        simp [Store.del, ih]
      · simp [Store.del, Store.find, h, ih]

/-! ## Helper lemmas about redemption of used codes -/

theorem validateAuthorizationCode_of_used (now : Nat)
    (codes : Store AuthorizationCode) (c : String) (rec : AuthorizationCode)
    (hfind : codes.find c = some rec) (hused : rec.used = true) :
    validateAuthorizationCode now codes c =
      (Except.error CodeErr.codeUsed, codes) := by
  simp [validateAuthorizationCode, hfind, hused]

theorem redeemRepeatedly_of_used (times : List Nat)
    (codes : Store AuthorizationCode) (c : String) (rec : AuthorizationCode)
    (hfind : codes.find c = some rec) (hused : rec.used = true) :
    ∀ r ∈ (redeemRepeatedly times codes c).1,
      r = Except.error CodeErr.codeUsed := by
  induction times with
  | nil => intro r hr; simp [redeemRepeatedly] at hr
  | cons t ts ih =>
      intro r hr
      simp only [redeemRepeatedly,
        validateAuthorizationCode_of_used t codes c rec hfind hused,
        List.mem_cons] at hr
      rcases hr with hr | hr
      · exact hr
      · exact ih r hr

/-! ## Claim theorems -/

/-- C1: `ValidateAuthorizationCode` is single-use.  An absent code fails
with the not-found error (`ErrInvalidToken`) leaving the store unchanged; a
used code fails with `ErrCodeUsed` leaving the store unchanged; an
unexpired check on a fresh code marks it used and returns it, after which
every later redemption at any instants fails with `ErrCodeUsed`; a fresh
but expired code fails with `ErrCodeExpired` and is evicted. -/
theorem claim_C1 (now : Nat) (codes : Store AuthorizationCode) (c : String) :
    (codes.find c = none →
      validateAuthorizationCode now codes c =
        (Except.error CodeErr.invalidToken, codes))
  ∧ (∀ rec, codes.find c = some rec → rec.used = true →
      validateAuthorizationCode now codes c =
        (Except.error CodeErr.codeUsed, codes))
  ∧ (∀ rec, codes.find c = some rec → rec.used = false →
      rec.expiresAt < now →
      validateAuthorizationCode now codes c =
        (Except.error CodeErr.codeExpired, codes.del c) ∧
      (codes.del c).find c = none)
  ∧ (∀ rec, codes.find c = some rec → rec.used = false →
      now ≤ rec.expiresAt →
      (validateAuthorizationCode now codes c).1 =
        Except.ok { rec with used := true } ∧
      ∀ laterTimes : List Nat,
        ∀ r ∈ (redeemRepeatedly laterTimes
                 (validateAuthorizationCode now codes c).2 c).1,
          r = Except.error CodeErr.codeUsed) := by
  refine ⟨?_, ?_, ?_, ?_⟩
  · intro h
    simp [validateAuthorizationCode, h]
  · intro rec hfind hused
    exact validateAuthorizationCode_of_used now codes c rec hfind hused
  · intro rec hfind hused hexp
    refine ⟨?_, Store.find_del_self codes c⟩
    simp [validateAuthorizationCode, hfind, hused, hexp]
  · intro rec hfind hused hexp
    have hstate : validateAuthorizationCode now codes c =
        (Except.ok { rec with used := true },
         codes.set c { rec with used := true }) := by
      simp [validateAuthorizationCode, hfind, hused, Nat.not_lt.mpr hexp]
    refine ⟨by rw [hstate], ?_⟩
    intro laterTimes r hr
    rw [hstate] at hr
    exact redeemRepeatedly_of_used laterTimes _ c { rec with used := true }
      (Store.find_set_self codes c _) rfl r hr

/-- C1 witness: the demo code store at instant 5 (before the expiry 600):
the first redemption returns the marked record and redemptions at instants
7, 20 and 9000 all fail with `ErrCodeUsed`. -/
theorem claim_C1_witness :
    (validateAuthorizationCode 5 demoCodes "code-1").1 =
      Except.ok { demoAuthCode with used := true } ∧
    ∀ r ∈ (redeemRepeatedly [7, 20, 9000]
             (validateAuthorizationCode 5 demoCodes "code-1").2 "code-1").1,
      r = Except.error CodeErr.codeUsed := by
  have h := (claim_C1 5 demoCodes "code-1").2.2.2 demoAuthCode rfl rfl
    (by decide)
  exact ⟨h.1, h.2 [7, 20, 9000]⟩

/-- C2 counterexample: after a successful `ValidateST` for the service the
ticket was minted for, validating the same ticket for a different service
fails with the already-used error, not the service-mismatch error the
claim requires, because the used-flag check precedes the service check. -/
theorem claim_C2_counterexample :
    (validateST 1 (validateST 0 demoSTStore "ST-1" "https://a.example.com").2
        "ST-1" "https://b.example.com").1 = Except.error STErr.stUsed ∧
    (validateST 1 (validateST 0 demoSTStore "ST-1" "https://a.example.com").2
        "ST-1" "https://b.example.com").1 ≠
      Except.error STErr.serviceMismatch := by
  decide

/-- C2 (amended): for an unexpired, unused ticket minted for serviceA,
`ValidateST(ticket, serviceA)` succeeds and a second
`ValidateST(ticket, serviceA)` within the lifetime fails already-used;
`ValidateST(ticket, serviceB)` fails service-mismatch when called before
any successful validation, and fails already-used — not service-mismatch —
when called after one. -/
theorem claim_C2_amended (now1 now2 now3 : Nat) (store : Store ServiceTicket)
    (t serviceA serviceB : String) (st : ServiceTicket)
    (hfind : store.find t = some st) (hused : st.used = false)
    (h1 : now1 ≤ st.expiresAt) (h2 : now2 ≤ st.expiresAt)
    (h3 : now3 ≤ st.expiresAt)
    (hsvc : st.service = serviceA) (hne : serviceB ≠ serviceA) :
    (validateST now1 store t serviceA).1 = Except.ok { st with used := true }
  ∧ (validateST now2 (validateST now1 store t serviceA).2 t serviceA).1 =
      Except.error STErr.stUsed
  ∧ (validateST now3 store t serviceB).1 = Except.error STErr.serviceMismatch
  ∧ (validateST now2 (validateST now1 store t serviceA).2 t serviceB).1 =
      Except.error STErr.stUsed := by
  have hstate : validateST now1 store t serviceA =
      (Except.ok { st with used := true },
       store.set t { st with used := true }) := by
    simp [validateST, hfind, hused, hsvc, Nat.not_lt.mpr h1]
  have hfind2 : (store.set t { st with used := true }).find t =
      some { st with used := true } := Store.find_set_self store t _
  refine ⟨by rw [hstate], ?_, ?_, ?_⟩
  · rw [hstate]
    simp [validateST, hfind2, Nat.not_lt.mpr h2]
  · have hne2 : st.service ≠ serviceB := by rw [hsvc]; exact fun h => hne h.symm
    simp [validateST, hfind, hused, hne2, Nat.not_lt.mpr h3]
  · rw [hstate]
    simp [validateST, hfind2, Nat.not_lt.mpr h2]

/-- C2 witness: the demo ticket store, concrete services and instants. -/
theorem claim_C2_witness :
    (validateST 0 demoSTStore "ST-1" "https://a.example.com").1 =
      Except.ok { demoST with used := true }
  ∧ (validateST 1 (validateST 0 demoSTStore "ST-1" "https://a.example.com").2
      "ST-1" "https://a.example.com").1 = Except.error STErr.stUsed
  ∧ (validateST 2 demoSTStore "ST-1" "https://b.example.com").1 =
      Except.error STErr.serviceMismatch
  ∧ (validateST 1 (validateST 0 demoSTStore "ST-1" "https://a.example.com").2
      "ST-1" "https://b.example.com").1 = Except.error STErr.stUsed :=
  claim_C2_amended 0 1 2 demoSTStore "ST-1" "https://a.example.com"
    "https://b.example.com" demoST rfl rfl (by decide) (by decide) (by decide)
    rfl (by decide)

/-- C9 counterexample: `ValidateST` on an expired ticket fails and does NOT
leave the stored ticket unchanged — the record is evicted from the store —
refuting the claim's "or any other error" generality. -/
theorem claim_C9_counterexample :
    (validateST 10 demoExpiredSTStore "ST-2" "https://b.example.com").1 =
      Except.error STErr.stExpired ∧
    ((validateST 10 demoExpiredSTStore "ST-2" "https://b.example.com").2).find
        "ST-2" = none ∧
    demoExpiredSTStore.find "ST-2" ≠ none := by
  decide

/-- C9 (amended): a service-mismatch failure of `ValidateST` leaves the
store literally unchanged (in particular the used-flag is not set), so a
subsequent `ValidateST` for the minted-for service within the lifetime
still succeeds; the expired failure, by contrast, evicts the record. -/
theorem claim_C9_amended (now1 now2 : Nat) (store : Store ServiceTicket)
    (t serviceA serviceB : String) (st : ServiceTicket)
    (hfind : store.find t = some st) (hused : st.used = false)
    (h1 : now1 ≤ st.expiresAt) (h2 : now2 ≤ st.expiresAt)
    (hsvc : st.service = serviceA) (hne : serviceB ≠ serviceA) :
    validateST now1 store t serviceB = (Except.error STErr.serviceMismatch, store)
  ∧ (validateST now2 (validateST now1 store t serviceB).2 t serviceA).1 =
      Except.ok { st with used := true } := by
  have hne2 : st.service ≠ serviceB := by rw [hsvc]; exact fun h => hne h.symm
  have hstate : validateST now1 store t serviceB =
      (Except.error STErr.serviceMismatch, store) := by
    simp [validateST, hfind, hused, hne2, Nat.not_lt.mpr h1]
  refine ⟨hstate, ?_⟩
  rw [hstate]
  simp [validateST, hfind, hused, hsvc, Nat.not_lt.mpr h2]

/-- C3: PKCE verification is exact.  Under method `S256`, `verifyPKCE`
succeeds iff the stored challenge equals the unpadded base64url encoding of
the SHA-256 digest of the verifier (so any verifier whose digest encoding
differs fails); under method `plain` it succeeds iff the challenge is
byte-equal to the verifier. -/
theorem claim_C3 (challenge v : String) :
    (verifyPKCE challenge "S256" v = true ↔ challenge = specS256Challenge v)
  ∧ (verifyPKCE challenge "plain" v = true ↔ challenge = v) := by
  constructor
  · simp [verifyPKCE, specS256Challenge]
  · simp [verifyPKCE]

set_option maxRecDepth 200000 in
/-- C3 witness: the RFC 7636 appendix-B pair — the challenge
`E9Melhoa2OwvFrEMTJguCHaoeK1t8URWbuGJSstw-cM` verifies against the
verifier `dBjftJeZ4CVP-mB92K27uhbUJU1p1r_wW1gFWFOEjXk` under `S256`
(exercising the SHA-256 and base64url embedding end to end), and a plain
pair verifies by byte equality. -/
theorem claim_C3_witness :
    verifyPKCE "E9Melhoa2OwvFrEMTJguCHaoeK1t8URWbuGJSstw-cM" "S256"
      "dBjftJeZ4CVP-mB92K27uhbUJU1p1r_wW1gFWFOEjXk" = true ∧
    verifyPKCE "plain-challenge" "plain" "plain-challenge" = true :=
  ⟨(claim_C3 "E9Melhoa2OwvFrEMTJguCHaoeK1t8URWbuGJSstw-cM"
      "dBjftJeZ4CVP-mB92K27uhbUJU1p1r_wW1gFWFOEjXk").1.mpr (by decide),
   (claim_C3 "plain-challenge" "plain-challenge").2.mpr rfl⟩

/-- C4: refresh-token rotation.  For a valid (unrevoked, unexpired,
correct-issuer) refresh token presented to the refresh-token grant, the
handler checks the kind is `refresh`, revokes the presented token, and
mints an access+refresh pair carrying the same user/client/scope claims;
afterwards the original token fails validation (it is in the revocation
set) while the newly issued refresh token validates successfully. -/
theorem claim_C4 (now : Nat) (s : TokenSvc) (tok : TokenM)
    (hfresh : s.Fresh) (hjti : tok.jti < s.nextJti)
    (hnrev : tok ∉ s.revoked) (hexp : now ≤ tok.expiresAt)
    (hiss : tok.issuer = s.issuer) (htyp : tok.typ = "refresh") :
    ∃ res s3,
      handleRefreshToken now s (some tok) = (Except.ok res, s3)
      ∧ res.accessToken.typ = "access"
      ∧ res.refreshToken.typ = "refresh"
      ∧ res.accessToken.userID = tok.userID
      ∧ res.accessToken.clientID = tok.clientID
      ∧ res.accessToken.scopes = tok.scopes
      ∧ res.refreshToken.userID = tok.userID
      ∧ res.refreshToken.clientID = tok.clientID
      ∧ res.refreshToken.username = tok.username
      ∧ res.refreshToken.email = tok.email
      ∧ res.refreshToken.scopes = tok.scopes
      ∧ validateToken now s3 tok = Except.error TokenErr.invalidToken
      ∧ validateToken now s3 res.refreshToken = Except.ok res.refreshToken := by
  have hval : validateToken now s tok = Except.ok tok := by
    simp [validateToken, hnrev, Nat.not_lt.mpr hexp, hiss]
  refine ⟨{ accessToken :=
              { userID := tok.userID, username := tok.username,
                email := tok.email, orgID := "", appID := "",
                clientID := tok.clientID, scopes := tok.scopes,
                typ := "access", issuer := s.issuer,
                expiresAt := now + s.accessExpiry, jti := s.nextJti },
            refreshToken :=
              { userID := tok.userID, username := tok.username,
                email := tok.email, orgID := "", appID := "",
                clientID := tok.clientID, scopes := tok.scopes,
                typ := "refresh", issuer := s.issuer,
                expiresAt := now + s.refreshExpiry, jti := s.nextJti + 1 },
            scope := tok.scopes },
          { s with revoked := tok :: s.revoked, nextJti := s.nextJti + 1 + 1 },
          ?_, rfl, rfl, rfl, rfl, rfl, rfl, rfl, rfl, rfl, rfl, ?_, ?_⟩
  · simp [handleRefreshToken, hval, htyp, revokeToken, generateAccessToken,
      generateRefreshToken]
  · simp [validateToken]
  · have hnmem :
        ({ userID := tok.userID, username := tok.username,
           email := tok.email, orgID := "", appID := "",
           clientID := tok.clientID, scopes := tok.scopes,
           typ := "refresh", issuer := s.issuer,
           expiresAt := now + s.refreshExpiry,
           jti := s.nextJti + 1 } : TokenM) ∉ tok :: s.revoked := by
      intro hmem
      rcases List.mem_cons.mp hmem with h | h
      · have h2 : s.nextJti + 1 = tok.jti := congrArg TokenM.jti h
        omega
      · have h2 : s.nextJti + 1 < s.nextJti := hfresh _ h
        omega
    simp [validateToken, hnmem, Nat.not_lt.mpr (Nat.le_add_right now s.refreshExpiry)]

/-- C4 witness: the demo token service with one issued refresh token:
rotation succeeds, the old token then fails validation, the new one
validates. -/
theorem claim_C4_witness :
    ∃ res s3,
      handleRefreshToken 0 demoTokenSvc1 (some demoRefreshTok) =
        (Except.ok res, s3)
      ∧ res.accessToken.typ = "access"
      ∧ res.refreshToken.typ = "refresh"
      ∧ res.accessToken.userID = demoRefreshTok.userID
      ∧ res.accessToken.clientID = demoRefreshTok.clientID
      ∧ res.accessToken.scopes = demoRefreshTok.scopes
      ∧ res.refreshToken.userID = demoRefreshTok.userID
      ∧ res.refreshToken.clientID = demoRefreshTok.clientID
      ∧ res.refreshToken.username = demoRefreshTok.username
      ∧ res.refreshToken.email = demoRefreshTok.email
      ∧ res.refreshToken.scopes = demoRefreshTok.scopes
      ∧ validateToken 0 s3 demoRefreshTok = Except.error TokenErr.invalidToken
      ∧ validateToken 0 s3 res.refreshToken = Except.ok res.refreshToken :=
  claim_C4 0 demoTokenSvc1 demoRefreshTok (by decide) (by decide) (by decide)
    (by decide) rfl rfl

/-- C9 witness: the demo ticket store, concrete services and instants. -/
theorem claim_C9_witness :
    validateST 0 demoSTStore "ST-1" "https://b.example.com" =
      (Except.error STErr.serviceMismatch, demoSTStore)
  ∧ (validateST 1 (validateST 0 demoSTStore "ST-1" "https://b.example.com").2
      "ST-1" "https://a.example.com").1 =
      Except.ok { demoST with used := true } :=
  claim_C9_amended 0 1 demoSTStore "ST-1" "https://a.example.com"
    "https://b.example.com" demoST rfl rfl (by decide) (by decide) rfl
    (by decide)

/-- C5 (code bug): the claim demands that a flow proceeds only for an
application with status `active`, but the client-credentials handler (like
`Authorize` and the authorization-code grant) looks the application up via
`GetByClientID`, which does no status filtering, and never calls
`IsActive`: the grant succeeds for a disabled application. -/
theorem claim_C5_code_bug :
    disabledApp.isActive = false ∧
    handleClientCredentials demoDisabledApps "client-1" "s3cret" "openid" =
      Except.ok { clientID := "client-1", scopes := ["openid"] } := by
  decide

/-- C6 counterexample: on a system-flagged role, `UpdateRole` that keeps
the code succeeds (it is not rejected with the system-role error), and
`CreateRole` with the system role's code is rejected with the
code-exists error, not the system-role error — refuting "each mutating
operation … is rejected with the system-role error". -/
theorem claim_C6_counterexample :
    updateRole demoRoles { sysRole with name := "Renamed" } =
      Except.ok [{ sysRole with name := "Renamed" }] ∧
    updateRole demoRoles { sysRole with name := "Renamed" } ≠
      Except.error RoleErr.systemRole ∧
    createRole demoRoles { sysRole with id := "role-2" } =
      Except.error RoleErr.roleCodeExists ∧
    RoleErr.roleCodeExists ≠ RoleErr.systemRole := by
  decide

/-- C6 (amended): `DeleteRole` rejects any system-flagged role with the
system-role error; `UpdateRole` rejects a system-flagged role only when
the update would change its code, and otherwise applies the update;
`CreateRole` with an already-used code (in particular a system role's
code) is rejected with the code-exists error. -/
theorem claim_C6_amended (roles : List Role) (role : Role) (id : String) :
    (∀ existing, findRoleByID roles id = some existing →
        existing.isSystem = true →
        deleteRole roles id = Except.error RoleErr.systemRole)
  ∧ (∀ existing, findRoleByID roles role.id = some existing →
        existing.isSystem = true → role.code ≠ existing.code →
        updateRole roles role = Except.error RoleErr.systemRole)
  ∧ (∀ existing, findRoleByID roles role.id = some existing →
        existing.isSystem = true → role.code = existing.code →
        updateRole roles role =
          Except.ok (roles.map fun r => if r.id == role.id then role else r))
  ∧ (∀ existing, findRoleByCode roles role.code = some existing →
        createRole roles role = Except.error RoleErr.roleCodeExists) := by
  refine ⟨?_, ?_, ?_, ?_⟩
  · intro existing hfind hsys
    simp [deleteRole, hfind, hsys]
  · intro existing hfind hsys hne
    simp [updateRole, hfind, hsys, hne]
  · intro existing hfind hsys heq
    simp [updateRole, hfind, hsys, heq]
  · intro existing hfind
    simp [createRole, hfind]

/-- C6 witness: the seeded super-admin role — delete is rejected, a
code-changing update is rejected, a name-only update goes through, and
re-creating the code is rejected with code-exists. -/
theorem claim_C6_witness :
    deleteRole demoRoles "role-1" = Except.error RoleErr.systemRole
  ∧ updateRole demoRoles { sysRole with code := "renamed_code" } =
      Except.error RoleErr.systemRole
  ∧ updateRole demoRoles { sysRole with name := "Renamed2" } =
      Except.ok [{ sysRole with name := "Renamed2" }]
  ∧ createRole demoRoles { sysRole with id := "role-2" } =
      Except.error RoleErr.roleCodeExists := by
  refine ⟨(claim_C6_amended demoRoles sysRole "role-1").1 sysRole rfl rfl,
          (claim_C6_amended demoRoles { sysRole with code := "renamed_code" }
            "role-1").2.1 sysRole rfl rfl (by decide),
          ?_, (claim_C6_amended demoRoles { sysRole with id := "role-2" }
            "role-1").2.2.2 sysRole rfl⟩
  rw [(claim_C6_amended demoRoles { sysRole with name := "Renamed2" }
    "role-1").2.2.1 sysRole rfl rfl rfl]
  decide

/-- C7: `CheckPermission` grants everything to a role set containing the
super-admin role; for a role set without it, permission is granted iff
some role's permission set contains the exact `resource:action` code or
the `resource:*` wildcard, and denied otherwise. -/
theorem claim_C7 (roles : List Role) (resource action : String) :
    ((∃ r ∈ roles, r.code = roleSuperAdmin) →
        checkPermission roles resource action = true)
  ∧ ((∀ r ∈ roles, r.code ≠ roleSuperAdmin) →
      (checkPermission roles resource action = true ↔
        ∃ r ∈ roles, ∃ p ∈ r.permissions,
          p.code = buildPermissionCode resource action ∨
          p.code = buildPermissionCode resource actionAll)) := by
  constructor
  · rintro ⟨r, hr, hcode⟩
    simp only [checkPermission, List.any_eq_true, Bool.or_eq_true, beq_iff_eq]
    exact ⟨r, hr, Or.inl hcode⟩
  · intro hnone
    simp only [checkPermission, List.any_eq_true, Bool.or_eq_true, beq_iff_eq]
    constructor
    · rintro ⟨r, hr, hsup | hperm⟩
      · exact absurd hsup (hnone r hr)
      · exact ⟨r, hr, hperm⟩
    · rintro ⟨r, hr, hperm⟩
      exact ⟨r, hr, Or.inr hperm⟩

/-- C7 witness: the super-admin role grants an arbitrary pair; the
org-admin role grants via its exact code and via its wildcard code, and
denies a pair it holds no code for. -/
theorem claim_C7_witness :
    checkPermission [sysRole] "org" "delete" = true
  ∧ checkPermission [orgAdminRole] "user" "read" = true
  ∧ checkPermission [orgAdminRole] "app" "delete" = true
  ∧ checkPermission [orgAdminRole] "user" "delete" = false := by
  refine ⟨(claim_C7 [sysRole] "org" "delete").1
            ⟨sysRole, by decide, by decide⟩,
          ((claim_C7 [orgAdminRole] "user" "read").2 (by decide)).mpr
            ⟨orgAdminRole, by decide,
             ⟨{ code := "user:read" }, by decide, Or.inl (by decide)⟩⟩,
          ((claim_C7 [orgAdminRole] "app" "delete").2 (by decide)).mpr
            ⟨orgAdminRole, by decide,
             ⟨{ code := "app:*" }, by decide, Or.inr (by decide)⟩⟩,
          ?_⟩
  have h := (claim_C7 [orgAdminRole] "user" "delete").2 (by decide)
  have hne : ¬ ∃ r ∈ [orgAdminRole], ∃ p ∈ r.permissions,
      p.code = buildPermissionCode "user" "delete" ∨
      p.code = buildPermissionCode "user" actionAll := by decide
  cases hb : checkPermission [orgAdminRole] "user" "delete" with
  | false => rfl
  | true => exact absurd (h.mp hb) hne

/-- C8: account lockout.  Starting from an active, never-failed account,
five consecutive wrong-password attempts each fail with the
invalid-credentials error, the fifth sets a lock lasting the fixed
fifteen-minute cool-down, and a sixth attempt during the cool-down fails
with the locked error even though it presents the correct password. -/
theorem claim_C8 (t1 t2 t3 t4 t5 t6 : Nat) (name pw wrong : String)
    (hw : wrong ≠ pw) (h6 : t6 < t5 + lockDuration) :
    (authAttempts [t1, t2, t3, t4, t5]
        { username := name, password := pw, status := "active",
          failedLoginCount := 0, lockedUntil := none } wrong).1 =
      List.replicate 5 (Except.error AuthErr.invalidCredentials)
  ∧ (authAttempts [t1, t2, t3, t4, t5]
        { username := name, password := pw, status := "active",
          failedLoginCount := 0, lockedUntil := none } wrong).2 =
      { username := name, password := pw, status := "active",
        failedLoginCount := 5, lockedUntil := some (t5 + lockDuration) }
  ∧ (validateAndAuthenticate t6
        (authAttempts [t1, t2, t3, t4, t5]
          { username := name, password := pw, status := "active",
            failedLoginCount := 0, lockedUntil := none } wrong).2 pw).1 =
      Except.error AuthErr.accountLocked := by
  have hbw : (wrong == pw) = false := by
    simp [hw]
  have hrun : (authAttempts [t1, t2, t3, t4, t5]
      { username := name, password := pw, status := "active",
        failedLoginCount := 0, lockedUntil := none } wrong) =
      (List.replicate 5 (Except.error AuthErr.invalidCredentials),
       { username := name, password := pw, status := "active",
         failedLoginCount := 5, lockedUntil := some (t5 + lockDuration) }) := by
    simp [authAttempts, validateAndAuthenticate, UserM.isLocked,
      UserM.isActive, UserM.verifyPassword, incrementFailedLogin,
      resetFailedLogin, lockThreshold, hbw, List.replicate]
  refine ⟨by rw [hrun], by rw [hrun], ?_⟩
  rw [hrun]
  simp [validateAndAuthenticate, UserM.isLocked, h6]

/-- C8 witness: concrete account and instants — attempts at seconds 1–5
with a wrong password, then at second 6 with the correct one. -/
theorem claim_C8_witness :
    (authAttempts [1, 2, 3, 4, 5]
        { username := "alice", password := "Correct1", status := "active",
          failedLoginCount := 0, lockedUntil := none } "wrong-pass").1 =
      List.replicate 5 (Except.error AuthErr.invalidCredentials)
  ∧ (authAttempts [1, 2, 3, 4, 5]
        { username := "alice", password := "Correct1", status := "active",
          failedLoginCount := 0, lockedUntil := none } "wrong-pass").2 =
      { username := "alice", password := "Correct1", status := "active",
        failedLoginCount := 5, lockedUntil := some (5 + lockDuration) }
  ∧ (validateAndAuthenticate 6
        (authAttempts [1, 2, 3, 4, 5]
          { username := "alice", password := "Correct1", status := "active",
            failedLoginCount := 0, lockedUntil := none } "wrong-pass").2
        "Correct1").1 =
      Except.error AuthErr.accountLocked :=
  claim_C8 1 2 3 4 5 6 "alice" "Correct1" "wrong-pass" (by decide) (by decide)

/-- C10: in the authorization-code grant the client checks are conditional
on the request supplying them.  With an empty `client_id` and an empty
`client_secret` the grant never fails with the client-mismatch or
wrong-secret errors, and for a fresh unexpired code (whose client exists)
it succeeds subject only to the redirect-URI and PKCE checks. -/
theorem claim_C10 (now : Nat) (codes : Store AuthorizationCode)
    (apps : Store Application) (req : TokenRequestM)
    (hcid : req.clientID = "") (hsec : req.clientSecret = "") :
    ((handleAuthorizationCode now codes apps req).1 ≠
        Except.error OAuthErr.clientIDMismatch
      ∧ (handleAuthorizationCode now codes apps req).1 ≠
        Except.error OAuthErr.clientSecretWrong)
  ∧ (∀ rec app, req.code ≠ "" → codes.find req.code = some rec →
      rec.used = false → now ≤ rec.expiresAt →
      getByClientID apps rec.clientID = Except.ok app →
      (req.redirectURI = "" ∨ req.redirectURI = rec.redirectURI) →
      (rec.codeChallenge = "" ∨ (req.codeVerifier ≠ "" ∧
        verifyPKCE rec.codeChallenge rec.codeChallengeMethod
          req.codeVerifier = true)) →
      (handleAuthorizationCode now codes apps req).1 =
        Except.ok { userID := rec.userID, clientID := rec.clientID,
                    scopes := rec.scopes,
                    hasIDToken := containsScope rec.scopes "openid" }) := by
  constructor
  · by_cases hc : req.code = ""
    · constructor <;> simp [handleAuthorizationCode, hc]
    · rcases hv1 : (validateAuthorizationCode now codes req.code).1 with e | authCode
      · cases e <;> constructor <;> simp [handleAuthorizationCode, hc, hv1]
      · rcases hap : getByClientID apps authCode.clientID with e2 | app
        · constructor <;> simp [handleAuthorizationCode, hc, hv1, hap]
        · constructor <;>
          · simp only [handleAuthorizationCode, hc, hv1, hap, hcid, hsec,
              if_false]
            split_ifs <;> simp_all
  · intro rec app hcode hfind hused hexp happ hred hpkce
    have hv : validateAuthorizationCode now codes req.code =
        (Except.ok { rec with used := true },
         codes.set req.code { rec with used := true }) := by
      simp [validateAuthorizationCode, hfind, hused, Nat.not_lt.mpr hexp]
    have happ2 : getByClientID apps
        ({ rec with used := true } : AuthorizationCode).clientID =
        Except.ok app := happ
    rcases hred with hr | hr <;> rcases hpkce with hp | hp <;>
      simp [handleAuthorizationCode, hcode, hv, happ2, hcid, hsec, hr, hp]

/-- C10 witness: the demo store's fresh code with the active application;
the request supplies neither client id nor secret (nor redirect URI nor
verifier, the stored code carrying no PKCE challenge) and the exchange
succeeds. -/
theorem claim_C10_witness :
    (handleAuthorizationCode 5 demoCodes demoActiveApps demoReqNoCreds).1 =
      Except.ok { userID := demoAuthCode.userID,
                  clientID := demoAuthCode.clientID,
                  scopes := demoAuthCode.scopes,
                  hasIDToken := containsScope demoAuthCode.scopes "openid" } :=
  (claim_C10 5 demoCodes demoActiveApps demoReqNoCreds rfl rfl).2
    demoAuthCode demoActiveApp (by decide) rfl rfl (by decide) rfl
    (Or.inl rfl) (Or.inl rfl)

end UAC

